import Mathlib

/-!
Verification of the network-configuration template header
`arduino/codecell-raw-imu/secrets.template.h`.

The header is pure preprocessor text: an include guard `SECRETS_H` and four
object-like macro definitions (`SECRET_SSID`, `SECRET_PASSWORD`, `SECRET_IP`,
`SECRET_OUTPORT`).  We embed the preprocessor-level semantics shallowly:
a state is the ordered list of defined macros, and including the header is a
function on that state that respects the include guard.  Reading a
configuration value is a lookup in the macro table.
-/

namespace Secrets

/-- A macro body: the header uses string literals, one integer literal, and
the empty body of the include-guard define. -/
inductive ConfigValue where
  | str : String → ConfigValue
  | int : Nat → ConfigValue
  | unit : ConfigValue
deriving DecidableEq, Repr

/-- `#define SECRET_SSID "your_wifi_network"` (line 10 of the header). -/
def SECRET_SSID : String := "your_wifi_network"

/-- `#define SECRET_PASSWORD "your_wifi_password"` (line 11 of the header). -/
def SECRET_PASSWORD : String := "your_wifi_password"

/-- `#define SECRET_IP "192.168.1.100"` (line 14 of the header). -/
def SECRET_IP : String := "192.168.1.100"

/-- `#define SECRET_OUTPORT 8000` (line 15 of the header). -/
def SECRET_OUTPORT : Nat := 8000

/-- Preprocessor state of a translation unit: the macros defined so far,
in definition order. -/
structure CppState where
  defines : List (String × ConfigValue)
deriving DecidableEq, Repr

/-- The empty translation unit: no macro defined yet. -/
def emptyState : CppState := ⟨[]⟩

/-- Whether a macro name is currently defined (the `#ifndef` test). -/
def isDefined (s : CppState) (n : String) : Bool :=
  s.defines.any fun d => d.fst = n

/-- Effect of one `#define` directive: appends the definition. -/
def addDefine (s : CppState) (n : String) (v : ConfigValue) : CppState :=
  ⟨s.defines ++ [(n, v)]⟩

/-- Including `secrets.template.h`: the `#ifndef SECRETS_H` guard skips the
body when the guard macro is already defined; otherwise the guard macro and
the four configuration macros are defined, in file order. -/
def includeSecrets (s : CppState) : CppState :=
  if isDefined s "SECRETS_H" then s
  else
    addDefine
      (addDefine
        (addDefine
          (addDefine
            (addDefine s "SECRETS_H" ConfigValue.unit)
            "SECRET_SSID" (ConfigValue.str SECRET_SSID))
          "SECRET_PASSWORD" (ConfigValue.str SECRET_PASSWORD))
        "SECRET_IP" (ConfigValue.str SECRET_IP))
      "SECRET_OUTPORT" (ConfigValue.int SECRET_OUTPORT)

/-- State of a translation unit that included the header once. -/
def templateState : CppState := includeSecrets emptyState

/-- The configuration entries of a state: every define except the include
guard itself, which carries no configuration value. -/
def configEntries (s : CppState) : List (String × ConfigValue) :=
  s.defines.filter fun d => d.fst ≠ "SECRETS_H"

/-- Reading a configuration value: look the macro name up in the table. -/
def readConfig (s : CppState) (n : String) : Option ConfigValue :=
  (s.defines.find? fun d => d.fst = n).map Prod.snd

/-- Modelled from the spec: the data-model constraint "must parse as a valid
dotted-quad address" — the parser itself lives in the unseen consumer
firmware, so the validity notion follows the spec's words: four decimal
components separated by dots, each in the range 0–255.
Splits a character list at every dot. -/
def splitDot : List Char → List (List Char)
  | [] => [[]]
  | c :: cs =>
    if c = '.' then [] :: splitDot cs
    else
      match splitDot cs with
      | [] => [[c]]
      | g :: gs => (c :: g) :: gs

/-- Value of a list of decimal digit characters. -/
def digitsToNat (cs : List Char) : Nat :=
  cs.foldl (fun acc c => acc * 10 + (c.toNat - Char.toNat '0')) 0

/-- Modelled from the spec: a string is a valid IPv4 dotted-quad when it has
four components separated by dots, each a non-empty run of decimal digits
whose value is at most 255. -/
def isValidIPv4 (s : String) : Bool :=
  let parts := splitDot s.data
  parts.length = 4 &&
    parts.all fun p => (!p.isEmpty) && p.all Char.isDigit && digitsToNat p ≤ 255

/-- The only operation the configuration surface offers: reading a named
value.  No write, update or delete operation exists in the artifact. -/
inductive Op where
  | read : String → Op
deriving DecidableEq, Repr

/-- One step of the configuration surface: a read returns the looked-up
value and leaves the state untouched (defining constants has no runtime
effect, and reading them has none either). -/
def step (s : CppState) : Op → CppState × Option ConfigValue
  | Op.read n => (s, readConfig s n)

/-- Running a sequence of operations, collecting each read's result. -/
def run (s : CppState) : List Op → CppState × List (Option ConfigValue)
  | [] => (s, [])
  | op :: ops =>
    let r := step s op
    let rest := run r.fst ops
    (rest.fst, r.snd :: rest.snd)

/-- Two threads of pending reads executed under an arbitrary interleaving
schedule: `true` schedules thread one, `false` thread two; once the
schedule is exhausted the leftovers run sequentially.  Each scheduled read
goes through `step`, so any state effect a read had would be visible to
the other thread. -/
def runConc (s : CppState) :
    List Bool → List String → List String →
      List (Option ConfigValue) × List (Option ConfigValue)
  | [], p1, p2 => (p1.map (readConfig s), p2.map (readConfig s))
  | _ :: sched, [], [] => runConc s sched [] []
  | true :: sched, [], p2 => runConc s sched [] p2
  | true :: sched, n :: p1, p2 =>
    let r := step s (Op.read n)
    let rest := runConc r.fst sched p1 p2
    (r.snd :: rest.fst, rest.snd)
  | false :: sched, p1, [] => runConc s sched p1 []
  | false :: sched, p1, n :: p2 =>
    let r := step s (Op.read n)
    let rest := runConc r.fst sched p1 p2
    (rest.fst, r.snd :: rest.snd)

/-- A configuration as the copy-then-edit workflow sees it: the four values
a user fills in. -/
structure Config where
  ssid : String
  password : String
  ip : String
  outPort : Nat
deriving DecidableEq, Repr

/-- Modelled from the spec: the structural constraints of the data model —
non-empty SSID, non-empty password, an address parsing as a dotted-quad,
and a port in 1–65535. -/
def ValidConfig (c : Config) : Prop :=
  c.ssid ≠ "" ∧ c.password ≠ "" ∧ isValidIPv4 c.ip = true ∧
    1 ≤ c.outPort ∧ c.outPort ≤ 65535

/-- The configuration shipped by the template. -/
def templateConfig : Config :=
  ⟨SECRET_SSID, SECRET_PASSWORD, SECRET_IP, SECRET_OUTPORT⟩

/-- Editing a copy of a configuration: all four values are replaced. -/
def editConfig (_ : Config) (ssid password ip : String) (port : Nat) :
    Config :=
  ⟨ssid, password, ip, port⟩

end Secrets

namespace Secrets

/-- A read step never changes the preprocessor state. -/
lemma step_fst (s : CppState) (op : Op) : (step s op).fst = s := by
  cases op
  rfl

/-- Running any sequence of operations leaves the state unchanged. -/
lemma run_fst (s : CppState) (ops : List Op) : (run s ops).fst = s := by
  induction ops with
  | nil => rfl
  | cons op ops ih => cases op; simpa [run, step] using ih

/-- Claim C1: including the template header defines exactly four
configuration entries, in file order, each with its documented example
value: the SSID placeholder, the password placeholder, the address
"192.168.1.100" and the port 8000 — no more and no fewer. -/
theorem configEntries_template_exact :
    configEntries templateState =
      [("SECRET_SSID", ConfigValue.str "your_wifi_network"),
       ("SECRET_PASSWORD", ConfigValue.str "your_wifi_password"),
       ("SECRET_IP", ConfigValue.str "192.168.1.100"),
       ("SECRET_OUTPORT", ConfigValue.int 8000)] := by
  decide

/-- Claim C2: the target IP address value "192.168.1.100" is a valid IPv4
dotted-quad: four decimal components separated by dots, each in 0–255. -/
theorem secret_ip_valid_ipv4 : isValidIPv4 SECRET_IP = true := by
  decide

/-- Claim C3: the target UDP port value 8000 is in the range 1–65535, hence
representable as a non-zero 16-bit unsigned integer. -/
theorem secret_outport_in_range :
    1 ≤ SECRET_OUTPORT ∧ SECRET_OUTPORT ≤ 65535 ∧
      SECRET_OUTPORT < 2 ^ 16 ∧ SECRET_OUTPORT ≠ 0 := by
  decide

/-- Claim C7: the SSID and password placeholder values shipped in the
template are non-empty strings. -/
theorem placeholders_nonempty :
    SECRET_SSID ≠ "" ∧ SECRET_PASSWORD ≠ "" := by
  decide

/-- Claim C4: reading each of the four configuration values is total — the
lookup returns a value, never an absent result — and has no side effect on
the state. -/
theorem read_total :
    (readConfig templateState "SECRET_SSID").isSome = true ∧
      (readConfig templateState "SECRET_PASSWORD").isSome = true ∧
      (readConfig templateState "SECRET_IP").isSome = true ∧
      (readConfig templateState "SECRET_OUTPORT").isSome = true ∧
      ∀ n, (step templateState (Op.read n)).fst = templateState :=
  ⟨by decide, by decide, by decide, by decide,
   fun n => step_fst templateState (Op.read n)⟩

/-- Claim C5: no operation of the artifact mutates the configuration: after
any sequence of operations the state is unchanged and each of the four
names still reads as the value it was defined with. -/
theorem config_immutable :
    ∀ ops : List Op,
      (run templateState ops).fst = templateState ∧
        readConfig (run templateState ops).fst "SECRET_SSID" =
          some (ConfigValue.str SECRET_SSID) ∧
        readConfig (run templateState ops).fst "SECRET_PASSWORD" =
          some (ConfigValue.str SECRET_PASSWORD) ∧
        readConfig (run templateState ops).fst "SECRET_IP" =
          some (ConfigValue.str SECRET_IP) ∧
        readConfig (run templateState ops).fst "SECRET_OUTPORT" =
          some (ConfigValue.int SECRET_OUTPORT) := by
  intro ops
  refine ⟨run_fst _ _, ?_, ?_, ?_, ?_⟩ <;> (rw [run_fst]; decide)

/-- Claim C10: reading the configuration is deterministic — a read of a
name yields the same value after any two operation histories, so no read
depends on other configuration values or external state. -/
theorem read_deterministic :
    ∀ (ops1 ops2 : List Op) (n : String),
      readConfig (run templateState ops1).fst n =
        readConfig (run templateState ops2).fst n := by
  intro ops1 ops2 n
  rw [run_fst, run_fst]

/-- Under any interleaving, every read returns the lookup in the starting
state: reads neither disturb nor observe each other. -/
lemma runConc_eq (sched : List Bool) :
    ∀ (s : CppState) (p1 p2 : List String),
      runConc s sched p1 p2 =
        (p1.map (readConfig s), p2.map (readConfig s)) := by
  induction sched with
  | nil => intro s p1 p2; rfl
  | cons b sched ih =>
    intro s p1 p2
    cases b <;> cases p1 <;> cases p2 <;> simp [runConc, step, ih]

/-- Claim C8: two threads of reads may run under any interleaving schedule
without synchronization: each thread observes exactly the values it would
observe running alone, so no data race is observable. -/
theorem concurrent_reads_race_free :
    ∀ (sched : List Bool) (p1 p2 : List String),
      runConc templateState sched p1 p2 =
        (p1.map (readConfig templateState),
         p2.map (readConfig templateState)) := by
  intro sched p1 p2
  exact runConc_eq sched templateState p1 p2

/-- Claim C6: replacing all four template values by values satisfying the
data-model constraints yields a configuration that again satisfies the
same structural constraints the template satisfies. -/
theorem edit_roundtrip_valid (ssid password ip : String) (port : Nat)
    (h1 : ssid ≠ "") (h2 : password ≠ "")
    (h3 : isValidIPv4 ip = true) (h4 : 1 ≤ port) (h5 : port ≤ 65535) :
    ValidConfig templateConfig ∧
      ValidConfig (editConfig templateConfig ssid password ip port) :=
  ⟨by refine ⟨?_, ?_, ?_, ?_, ?_⟩ <;> decide, h1, h2, h3, h4, h5⟩

/-- Witness for the round-trip claim at one concrete edited configuration. -/
theorem edit_roundtrip_valid_witness :
    ("home_net" : String) ≠ "" ∧ ("pass1234" : String) ≠ "" ∧
      isValidIPv4 "10.0.0.42" = true ∧ 1 ≤ 9001 ∧ 9001 ≤ 65535 ∧
      ValidConfig (editConfig templateConfig "home_net" "pass1234" "10.0.0.42" 9001) :=
  ⟨by decide, by decide, by decide, by decide, by decide,
   (edit_roundtrip_valid "home_net" "pass1234" "10.0.0.42" 9001
      (by decide) (by decide) (by decide) (by decide) (by decide)).2⟩

/-- After including the header once, the include guard macro is defined. -/
lemma isDefined_guard (s : CppState) :
    isDefined (includeSecrets s) "SECRETS_H" = true := by
  unfold includeSecrets
  by_cases h : isDefined s "SECRETS_H" = true
  · rw [if_pos h]; exact h
  · rw [if_neg h]
    unfold isDefined addDefine
    simp [List.any_append]

/-- Claim C9: inclusion of the header is idempotent — including it twice in
any state produces exactly the state of including it once — and from a
fresh translation unit each configuration name ends up defined exactly
once. -/
theorem include_idempotent :
    (∀ s, includeSecrets (includeSecrets s) = includeSecrets s) ∧
      (templateState.defines.map Prod.fst).count "SECRET_SSID" = 1 ∧
      (templateState.defines.map Prod.fst).count "SECRET_PASSWORD" = 1 ∧
      (templateState.defines.map Prod.fst).count "SECRET_IP" = 1 ∧
      (templateState.defines.map Prod.fst).count "SECRET_OUTPORT" = 1 := by
  refine ⟨?_, by decide, by decide, by decide, by decide⟩
  intro s
  have e : includeSecrets (includeSecrets s) =
      if isDefined (includeSecrets s) "SECRETS_H" then includeSecrets s
      else
        addDefine
          (addDefine
            (addDefine
              (addDefine
                (addDefine (includeSecrets s) "SECRETS_H" ConfigValue.unit)
                "SECRET_SSID" (ConfigValue.str SECRET_SSID))
              "SECRET_PASSWORD" (ConfigValue.str SECRET_PASSWORD))
            "SECRET_IP" (ConfigValue.str SECRET_IP))
          "SECRET_OUTPORT" (ConfigValue.int SECRET_OUTPORT) := rfl
  rw [e, if_pos (isDefined_guard s)]

end Secrets
